import Mathlib

set_option maxHeartbeats 1000000

/-!
Verification development for the Softmax1x1 GPU operator
(`tensorflow/lite/delegates/gpu/cl/kernels/softmax1x1.cc`).

The development embeds, as plain Lean definitions:
  * the generated OpenCL kernel's two stride-32 loops, its shared-memory
    reduction and its second (normalization) pass, over exact rational
    arithmetic with the exponential kept abstract;
  * the kernel source text emitted by `GetSoftmaxKernelCode`;
  * the argument-binding sequence and dispatch geometry of
    `Softmax1x1::AddToQueue`;
  * the move-assignment operator of `Softmax1x1`.

External collaborators that are not part of this translation unit
(tensor accessors, `GetMaskForLastPlane`, `IntegralDivideRoundUp`,
`GetArgsDeclaration`, `BindArgs`, `PostProcess`) are modelled from the
specification; their doc comments say so explicitly.
-/

/-- Modelled from the spec: `IntegralDivideRoundUp` (declared in util.h, which is
not under src/) is ceiling division, as used in the spec's
"ceil(channel_depth/4)" and "ceil(channel_depth/32)" expressions. -/
def IntegralDivideRoundUp (n d : ℕ) : ℕ := (n + d - 1) / d

/-- A 4-lane vector of exact rationals, modelling the OpenCL `float4` values the
generated kernel computes with. -/
structure Float4 where
  x : ℚ
  y : ℚ
  z : ℚ
  w : ℚ
  deriving DecidableEq

/-- OpenCL `dot(a, b)` on 4-lane vectors. -/
def dot4 (a b : Float4) : ℚ := a.x * b.x + a.y * b.y + a.z * b.z + a.w * b.w

/-- The literal `(float4)(1.0f)` of the generated kernel. -/
def ones4 : Float4 := ⟨1, 1, 1, 1⟩

/-- Lane-wise application of the (abstract) exponential: OpenCL `exp(v)` on a
`float4`. The scalar exponential is a parameter `e` because the development
works in exact arithmetic. -/
def vexp (e : ℚ → ℚ) (v : Float4) : Float4 := ⟨e v.x, e v.y, e v.z, e v.w⟩

/-- OpenCL `v * s`: a `float4` scaled by a scalar, lane-wise. -/
def scalarMul (v : Float4) (s : ℚ) : Float4 := ⟨v.x * s, v.y * s, v.z * s, v.w * s⟩

/-- One generated `do { int z = offset + tid; if (z < size.x) { ...; offset += 32; }
s++; } while (s < size.y);` loop of the kernel (softmax1x1.cc lines 65-74 and
96-110), with the per-slot body abstracted.  The first argument of the
recursion is the number of remaining iterations (the loop increments `s` every
iteration and stops once `s` reaches it); `offset` advances by 32 only on
iterations whose slot test `z < size.x` succeeds, exactly as in the source. -/
def strideLoopGo {σ : Type _} (tid sizeX : ℕ) (body : ℕ → σ → σ) : ℕ → ℕ → σ → σ
  | 0, _, st => st
  | n + 1, offset, st =>
    if offset + tid < sizeX then
      strideLoopGo tid sizeX body n (offset + 32) (body (offset + tid) st)
    else
      strideLoopGo tid sizeX body n offset st

/-- A full run of the generated do-while loop: `offset = 0`, and the body
executes `max 1 size.y` times (a C `do { } while (s < size.y)` loop always
executes its body at least once). -/
def strideLoop {σ : Type _} (tid sizeX sizeY : ℕ) (body : ℕ → σ → σ) (st : σ) : σ :=
  strideLoopGo tid sizeX body (max 1 sizeY) 0 st

/-- Number of channel-vector slots a thread with local id `tid` visits:
the count of naturals `k` with `tid + 32*k < sizeX`. -/
def numVisited (tid sizeX : ℕ) : ℕ := (sizeX - tid + 31) / 32

/-- The slots visited by thread `tid`, in visiting order:
`tid, tid + 32, tid + 64, ...`, all below `sizeX`. -/
def visitedSlots (tid sizeX : ℕ) : List ℕ :=
  (List.range (numVisited tid sizeX)).map (fun k => tid + 32 * k)

/-- Pass 1 of the generated kernel (softmax1x1.cc lines 61-74): the thread-local
running sum accumulated over the stride-32 traversal.  Per visited slot `z` the
body is `float4 mask_temp = z == size.x - 1 ? mask : (float4)(1.0f);
float4 src = <read z>; sum += dot(mask_temp, exp(src));`. -/
def pass1Sum (tid sizeX sizeY : ℕ) (src : ℕ → Float4) (mask : Float4) (e : ℚ → ℚ) : ℚ :=
  strideLoop tid sizeX sizeY
    (fun z sum =>
      let mask_temp := if z = sizeX - 1 then mask else ones4
      let srcv := src z
      sum + dot4 mask_temp (vexp e srcv))
    0

/-- The 32 per-thread partial sums of Pass 1, with `size.y` instantiated to the
`IntegralDivideRoundUp(depth, 32)` value bound by `AddToQueue`; scalar slot
`tid` of the kernel's `__local float4 tmp[8]` holds `pass1Sums ... tid`
(`tmpx1[tid] = sum;`, line 78). -/
def pass1Sums (sizeX : ℕ) (src : ℕ → Float4) (mask : Float4) (e : ℚ → ℚ) : ℕ → ℚ :=
  fun tid => pass1Sum tid sizeX (IntegralDivideRoundUp sizeX 32) src mask e

/-- `tmp[i]` of the generated kernel: the `i`-th shared `float4` register,
aliasing scalar slots `4*i .. 4*i+3`. -/
def tmpVec (sums : ℕ → ℚ) (i : ℕ) : Float4 :=
  ⟨sums (4 * i), sums (4 * i + 1), sums (4 * i + 2), sums (4 * i + 3)⟩

/-- Thread 0's serial combination (softmax1x1.cc lines 81-88): the eight
dot-products of the shared registers against an all-ones vector. -/
def grandSum (sums : ℕ → ℚ) : ℚ :=
  dot4 ones4 (tmpVec sums 0) + dot4 ones4 (tmpVec sums 1) + dot4 ones4 (tmpVec sums 2) +
  dot4 ones4 (tmpVec sums 3) + dot4 ones4 (tmpVec sums 4) + dot4 ones4 (tmpVec sums 5) +
  dot4 ones4 (tmpVec sums 6) + dot4 ones4 (tmpVec sums 7)

/-- Shared scalar memory after thread 0 executes `tmpx1[0] = 1.0f / sum;`
(line 89): slot 0 holds the reciprocal, the other slots still hold the
partial sums. -/
def sharedAfterStore (sums : ℕ → ℚ) : ℕ → ℚ :=
  fun i => if i = 0 then 1 / grandSum sums else sums i

/-- The value every thread loads after the second barrier
(`sum = tmpx1[0];`, line 92). -/
def loadedRecip (sums : ℕ → ℚ) : ℚ := sharedAfterStore sums 0

/-- The fused post-processing chain: each linked operation transforms the value
`res` in sequence, possibly using the element's slot coordinate `z`
(`PostProcess(linked_operations, {"res", "0", "0", "z"})`, lines 100-101). -/
def chainApply (ops : List (Float4 → ℕ → Float4)) (v : Float4) (z : ℕ) : Float4 :=
  ops.foldl (fun acc f => f acc z) v

/-- Pass 2 of the generated kernel (softmax1x1.cc lines 94-110) for one thread:
the list of `(slot, value)` destination writes, in order.  Per visited slot `z`
the body is `FLT4 res = TO_FLT4(exp(<read z>)*sum);` followed by the linked
operations' post-processing and the destination write at coordinates
`(0, 0, z)`. -/
def pass2Writes (tid sizeX sizeY : ℕ) (src : ℕ → Float4) (e : ℚ → ℚ) (sum : ℚ)
    (toFLT4 : Float4 → Float4) (ops : List (Float4 → ℕ → Float4)) : List (ℕ × Float4) :=
  strideLoop tid sizeX sizeY
    (fun z ws =>
      let res := toFLT4 (scalarMul (vexp e (src z)) sum)
      ws ++ [(z, chainApply ops res z)])
    []

/-- Modelled from the spec: `GetMaskForLastPlane(channels)` lives in util.cc,
which is not under src/ (only its caller, line 147, is).  Spec section 4.1
(ComputeMask): let `r = channel_depth mod 4`; if `r == 0` all four lanes are
valid (`[1,1,1,1]`); otherwise lanes `0..r-1` are 1.0 and lanes `r..3` are
0.0. -/
def GetMaskForLastPlane (channels : ℕ) : Float4 :=
  let r := if channels % 4 = 0 then 4 else channels % 4
  ⟨if 0 < r then 1 else 0, if 1 < r then 1 else 0,
   if 2 < r then 1 else 0, if 3 < r then 1 else 0⟩

/-- The number of valid lanes the spec ascribes to the mask:
`channel_depth mod 4`, or 4 when that remainder is 0. -/
def maskValidLanes (channels : ℕ) : ℕ :=
  if channels % 4 = 0 then 4 else channels % 4

/-- The four lanes of a `float4`, lowest-indexed first. -/
def laneList (v : Float4) : List ℚ := [v.x, v.y, v.z, v.w]

/-- Modelled from the spec: the external tensor abstraction's shape
(spec section 3, TensorDescriptor: width, height, channel depth, batch).
`channels` is the true channel count (`Channels()`), `batch` is `Batch()`. -/
structure TensorShape where
  width : ℕ
  height : ℕ
  channels : ℕ
  batch : ℕ

/-- Modelled from the spec: the tensor accessor `Depth()` (not under src/) is
the number of 4-channel vector slots, `ceil(channels/4)` — spec section 3:
"`ceil(channel_depth / 4)` vectorized steps, each step covering 4 channels". -/
def TensorShape.Depth (t : TensorShape) : ℕ := IntegralDivideRoundUp t.channels 4

/-- The `int2 size` argument bound by `AddToQueue` (softmax1x1.cc lines
140-142): `int2(depth, IntegralDivideRoundUp(depth, 32))` with
`depth = src_[0]->Depth()`. -/
def sizeArg (src : TensorShape) : ℕ × ℕ :=
  (src.Depth, IntegralDivideRoundUp src.Depth 32)

/-- The `float4 mask` argument bound by `AddToQueue` (lines 146-147):
`GetMaskForLastPlane(src_[0]->Channels())`. -/
def maskArg (src : TensorShape) : Float4 := GetMaskForLastPlane src.channels

/-- The kinds of kernel arguments, used to compare the parameter order the
generated kernel declares with the order `AddToQueue` binds. -/
inductive KernelArg
  | srcBuffer
  | linkedArg (opIndex argIndex : ℕ)
  | dstBufferForWriting
  | tensorSize4
  | sizePair
  | batchScalar
  | maskVector
  deriving DecidableEq

/-- Modelled from the spec: `GetArgsDeclaration` and `BindArgs` (util.cc, not
under src/) both traverse the linked operations in sequence order, each
operation contributing its runtime arguments "in the same order they
contributed declarations" (spec section 4.4).  A linked operation is
represented by its runtime-argument count. -/
def linkedArgList (ops : List ℕ) : List KernelArg :=
  (ops.enum).flatMap (fun p => (List.range p.2).map (KernelArg.linkedArg p.1))

/-- The parameter order declared by the generated kernel (softmax1x1.cc lines
46-55): source buffer, linked operations' arguments, destination buffer,
`int4 tensor_size`, `int2 size`, `int BATCH_SIZE` only under batch support,
`float4 mask`. -/
def declaredParams (batchSupport : Bool) (ops : List ℕ) : List KernelArg :=
  [KernelArg.srcBuffer] ++ linkedArgList ops ++ [KernelArg.dstBufferForWriting] ++
    [KernelArg.tensorSize4] ++ [KernelArg.sizePair] ++
    (if batchSupport then [KernelArg.batchScalar] else []) ++ [KernelArg.maskVector]

/-- The positional binding order of `Softmax1x1::AddToQueue` (softmax1x1.cc
lines 136-147): `SetMemoryAuto(src)`, `BindArgs(linked)`,
`SetMemoryAuto(dst for writing)`, `SetBytesAuto(GetSizeWithDepth())`,
`SetBytesAuto(int2(depth, ceil(depth/32)))`, `SetBytesAuto(Batch())` only
under batch support, `SetBytesAuto(mask)`. -/
def boundArgs (batchSupport : Bool) (ops : List ℕ) : List KernelArg :=
  [KernelArg.srcBuffer] ++ linkedArgList ops ++ [KernelArg.dstBufferForWriting] ++
    [KernelArg.tensorSize4] ++ [KernelArg.sizePair] ++
    (if batchSupport then [KernelArg.batchScalar] else []) ++ [KernelArg.maskVector]

/-- Modelled from the spec: the compiled kernel handle's argument-binding
cursor (spec section 3, CompiledKernelHandle).  `SetMemoryAuto` and
`SetBytesAuto` bind at the cursor position and advance it, and each may fail;
`ResetBindingCounter` sets the cursor to zero. -/
structure KernelBindState where
  counter : ℕ
  deriving DecidableEq

/-- Runs a sequence of positional binds: each attempted bind succeeds exactly
when `ok` holds at the cursor position; on the first failure the run stops
(`RETURN_IF_ERROR`) and the cursor is left where it was.  Returns the success
flag and the kernel state after the call. -/
def runBinds (ok : ℕ → Bool) : List KernelArg → KernelBindState → Bool × KernelBindState
  | [], st => (true, st)
  | _ :: rest, st =>
    if ok st.counter then runBinds ok rest ⟨st.counter + 1⟩
    else (false, st)

/-- The binding phase of `Softmax1x1::AddToQueue` (softmax1x1.cc lines
135-147): `kernel_.ResetBindingCounter();` first, then the positional binds of
`boundArgs` in order.  The entry state `st` is the kernel's binding state left
over from any previous call. -/
def addToQueueBind (batchSupport : Bool) (ops : List ℕ) (ok : ℕ → Bool)
    (_st : KernelBindState) : Bool × KernelBindState :=
  runBinds ok (boundArgs batchSupport ops) ⟨0⟩

/-- The global work size passed to `DispatchImplicit` (softmax1x1.cc lines
149-150): `{32, dst_[0]->Batch(), 1}`. -/
def dispatchGlobalSize (dst : TensorShape) : ℕ × ℕ × ℕ := (32, dst.batch, 1)

/-- The local work-group size passed to `DispatchImplicit` (line 150):
`{32, 1, 1}`. -/
def dispatchLocalSize : ℕ × ℕ × ℕ := (32, 1, 1)

/-- Modelled from the spec: the external `TensorCodeGenerator` (util.cc, not
under src/): declaration text and the read/write expression builders the
generator calls (`GetDeclaration`, `ReadAsFloat3D`, `ReadAsFloat4D`,
`Write3D`, `Write4D`).  Kept fully abstract as opaque text builders. -/
structure TensorCodeGen where
  decl : String
  read3D : String → String → String → String
  read4D : String → String → String → String → String
  write3D : String → String → String → String → String
  write4D : String → String → String → String → String → String

/-- Modelled from the spec: a linked operation's two code-generation
contributions — its argument declarations and its post-process code
(spec section 3, LinkedOperation capability set). -/
structure LinkedOpCode where
  argDecl : String
  postCode : String

/-- Modelled from the spec: `GetArgsDeclaration` (util.cc, not under src/)
concatenates each linked operation's argument declarations in sequence
order. -/
def GetArgsDeclaration (linked : List LinkedOpCode) : String :=
  String.join (linked.map (fun op => op.argDecl))

/-- Modelled from the spec: `PostProcess` (util.cc, not under src/)
concatenates each linked operation's post-process code in sequence order,
for the fixed linking context `{"res", "0", "0", "z"}`. -/
def PostProcess (linked : List LinkedOpCode) : String :=
  String.join (linked.map (fun op => op.postCode))

/-- The `read_src` lambda of `GetSoftmaxKernelCode` (softmax1x1.cc lines
36-43): `ReadAsFloat4D(x, y, z, "B")` under batch support, otherwise
`ReadAsFloat3D(x, y, z, DONT_CARE)`. -/
def readSrcExpr (srcT : TensorCodeGen) (batchSupport : Bool) (x y z : String) : String :=
  if batchSupport then srcT.read4D x y z "B" else srcT.read3D x y z

/-- The kernel source text built by `GetSoftmaxKernelCode` (softmax1x1.cc lines
28-113), one appended atom per `c +=` statement of the source, in source
order.  `commonDefines` stands for the external `GetCommonDefines(precision)`
text. -/
def GetSoftmaxKernelCode (commonDefines : String) (srcT dstT : TensorCodeGen)
    (batchSupport : Bool) (linked : List LinkedOpCode) : String :=
  commonDefines
  ++ "__kernel void main_function(\n"
  ++ srcT.decl
  ++ GetArgsDeclaration linked
  ++ (dstT.decl ++ ",\n")
  ++ "    int4 tensor_size,\n"
  ++ "    int2 size,\n"
  ++ (if batchSupport then "    int BATCH_SIZE,  \n" else "")
  ++ "    float4 mask\n"
  ++ ") \x7b\n"
  ++ (if batchSupport then
        "  int B = get_global_id(1);\n" ++ "  if (B >= BATCH_SIZE) return;\n"
      else "")
  ++ "  int offset = 0;\n"
  ++ "  float sum = 0.0f;\n"
  ++ "  int s = 0;\n"
  ++ "  int tid = get_local_id(0);\n"
  ++ "  do \x7b\n"
  ++ "    int z = offset + tid;\n"
  ++ "    if (z < size.x) \x7b\n"
  ++ "      float4 mask_temp = z == size.x - 1 ? mask : (float4)(1.0f);\n"
  ++ ("      float4 src = " ++ readSrcExpr srcT batchSupport "0" "0" "z" ++ ";\n")
  ++ "      sum += dot(mask_temp, exp(src));\n"
  ++ "      offset += 32;\n"
  ++ "    \x7d\n"
  ++ "    s++;\n"
  ++ "  \x7d while (s < size.y);\n"
  ++ "\n"
  ++ "  __local float4 tmp[8];\n"
  ++ "  __local float* tmpx1 = (__local float*)tmp;\n"
  ++ "  tmpx1[tid] = sum;\n"
  ++ "  barrier(CLK_LOCAL_MEM_FENCE);\n"
  ++ "  if (tid == 0) \x7b\n"
  ++ "    sum = dot((float4)(1.0f), tmp[0]);\n"
  ++ "    sum += dot((float4)(1.0f), tmp[1]);\n"
  ++ "    sum += dot((float4)(1.0f), tmp[2]);\n"
  ++ "    sum += dot((float4)(1.0f), tmp[3]);\n"
  ++ "    sum += dot((float4)(1.0f), tmp[4]);\n"
  ++ "    sum += dot((float4)(1.0f), tmp[5]);\n"
  ++ "    sum += dot((float4)(1.0f), tmp[6]);\n"
  ++ "    sum += dot((float4)(1.0f), tmp[7]);\n"
  ++ "    tmpx1[0] = 1.0f / sum;\n"
  ++ "  \x7d\n"
  ++ "  barrier(CLK_LOCAL_MEM_FENCE);\n"
  ++ "  sum = tmpx1[0];\n"
  ++ "\n"
  ++ "  offset = 0;\n"
  ++ "  s = 0;\n"
  ++ "  do \x7b\n"
  ++ "    int z = offset + tid;\n"
  ++ "    if (z < size.x) \x7b\n"
  ++ ("      FLT4 res = TO_FLT4(exp(" ++ readSrcExpr srcT batchSupport "0" "0" "z"
        ++ ")*sum);\n")
  ++ PostProcess linked
  ++ (if batchSupport then "    " ++ dstT.write4D "res" "0" "0" "z" "B"
      else "    " ++ dstT.write3D "res" "0" "0" "z")
  ++ "      offset += 32;\n"
  ++ "    \x7d\n"
  ++ "    s++;\n"
  ++ "  \x7d while (s < size.y);\n"
  ++ "\x7d\n"

/-- The parameter-declaration region of the generated source: everything the
generator emits before the `") {"` that opens the function body. -/
def softmaxDeclRegion (commonDefines : String) (srcT dstT : TensorCodeGen)
    (batchSupport : Bool) (linked : List LinkedOpCode) : String :=
  commonDefines
  ++ ("__kernel void main_function(\n"
  ++ (srcT.decl
  ++ (GetArgsDeclaration linked
  ++ ((dstT.decl ++ ",\n")
  ++ ("    int4 tensor_size,\n"
  ++ ("    int2 size,\n"
  ++ ((if batchSupport then "    int BATCH_SIZE,  \n" else "")
  ++ "    float4 mask\n")))))))

/-- The batch-overflow early-exit statements (softmax1x1.cc lines 58-59),
emitted only under batch support. -/
def softmaxEarlyExit : String :=
  "  int B = get_global_id(1);\n" ++ "  if (B >= BATCH_SIZE) return;\n"

/-- The workgroup barrier statement of the generated kernel. -/
def softmaxBarrierStmt : String := "  barrier(CLK_LOCAL_MEM_FENCE);\n"

/-- The Pass 1 reduction loop of the generated kernel (lines 61-75). -/
def softmaxPass1Code (readExpr : String) : String :=
  "  int offset = 0;\n"
  ++ ("  float sum = 0.0f;\n"
  ++ ("  int s = 0;\n"
  ++ ("  int tid = get_local_id(0);\n"
  ++ ("  do \x7b\n"
  ++ ("    int z = offset + tid;\n"
  ++ ("    if (z < size.x) \x7b\n"
  ++ ("      float4 mask_temp = z == size.x - 1 ? mask : (float4)(1.0f);\n"
  ++ (("      float4 src = " ++ readExpr ++ ";\n")
  ++ ("      sum += dot(mask_temp, exp(src));\n"
  ++ ("      offset += 32;\n"
  ++ ("    \x7d\n"
  ++ ("    s++;\n"
  ++ ("  \x7d while (s < size.y);\n"
  ++ "\n")))))))))))))

/-- The shared-memory declarations and partial-sum store (lines 76-78). -/
def softmaxStoreShared : String :=
  "  __local float4 tmp[8];\n"
  ++ ("  __local float* tmpx1 = (__local float*)tmp;\n"
  ++ "  tmpx1[tid] = sum;\n")

/-- Thread 0's serial combination and reciprocal store (lines 80-90). -/
def softmaxCombineThread0 : String :=
  "  if (tid == 0) \x7b\n"
  ++ ("    sum = dot((float4)(1.0f), tmp[0]);\n"
  ++ ("    sum += dot((float4)(1.0f), tmp[1]);\n"
  ++ ("    sum += dot((float4)(1.0f), tmp[2]);\n"
  ++ ("    sum += dot((float4)(1.0f), tmp[3]);\n"
  ++ ("    sum += dot((float4)(1.0f), tmp[4]);\n"
  ++ ("    sum += dot((float4)(1.0f), tmp[5]);\n"
  ++ ("    sum += dot((float4)(1.0f), tmp[6]);\n"
  ++ ("    sum += dot((float4)(1.0f), tmp[7]);\n"
  ++ ("    tmpx1[0] = 1.0f / sum;\n"
  ++ "  \x7d\n")))))))))

/-- The shared-reciprocal load every thread performs after the second barrier
(lines 92-93). -/
def softmaxLoadRecip : String := "  sum = tmpx1[0];\n" ++ "\n"

/-- The Pass 2 normalization loop of the generated kernel (lines 94-111). -/
def softmaxPass2Code (readExpr postCode writeStmt : String) : String :=
  "  offset = 0;\n"
  ++ ("  s = 0;\n"
  ++ ("  do \x7b\n"
  ++ ("    int z = offset + tid;\n"
  ++ ("    if (z < size.x) \x7b\n"
  ++ (("      FLT4 res = TO_FLT4(exp(" ++ readExpr ++ ")*sum);\n")
  ++ (postCode
  ++ (writeStmt
  ++ ("      offset += 32;\n"
  ++ ("    \x7d\n"
  ++ ("    s++;\n"
  ++ ("  \x7d while (s < size.y);\n"
  ++ "\x7d\n")))))))))))

/-- Whether the character list `p` is an initial segment of `s`. -/
def beginsWith : List Char → List Char → Bool
  | [], _ => true
  | _ :: _, [] => false
  | p :: ps, c :: cs => p == c && beginsWith ps cs

/-- Whether the character list `p` occurs contiguously anywhere inside `s`. -/
def hasSub (p : List Char) : List Char → Bool
  | [] => beginsWith p []
  | c :: cs => beginsWith p (c :: cs) || hasSub p cs

/-- One Softmax1x1 object's members: the inherited `GPUOperation` state and the
compiled kernel handle `kernel_`, both abstracted to opaque payloads. -/
structure Softmax1x1Obj where
  gpuOp : ℕ
  kernel : ℕ
  deriving DecidableEq

/-- Modelled from the spec: the member state a move leaves behind in the
moved-from object (spec section 4.5: "a moved-from instance must not be used
for dispatch without being re-assigned"). -/
def movedFromObj : Softmax1x1Obj := ⟨0, 0⟩

/-- `Softmax1x1::operator=(Softmax1x1&&)` (softmax1x1.cc lines 119-125) over an
address-indexed object store, modelling C++ object identity: when
`this != &kernel` the target takes the source's members and the source is left
moved-from; when the addresses coincide (`this == &kernel`) the guard skips the
moves and the store is untouched. -/
def moveAssignSoftmax (store : ℕ → Softmax1x1Obj) (self other : ℕ) : ℕ → Softmax1x1Obj :=
  if self = other then store
  else fun a =>
    if a = self then store other
    else if a = other then movedFromObj
    else store a

theorem strAssoc : ∀ (a b c : String), a ++ b ++ c = a ++ (b ++ c)
  | ⟨la⟩, ⟨lb⟩, ⟨lc⟩ => congrArg String.mk (List.append_assoc la lb lc)

theorem strideLoopGo_stuck {σ : Type _} (tid sizeX offset : ℕ) (body : ℕ → σ → σ)
    (h : ¬ offset + tid < sizeX) :
    ∀ (n : ℕ) (st : σ), strideLoopGo tid sizeX body n offset st = st := by
  intro n
  induction n with
  | zero => intro st; rfl
  | succ n ih =>
    intro st
    simp only [strideLoopGo, if_neg h]
    exact ih st

theorem visit_lt_iff (tid sizeX j : ℕ) :
    32 * j + tid < sizeX ↔ j < numVisited tid sizeX := by
  simp only [numVisited]
  omega

theorem strideLoopGo_char {σ : Type _} (tid sizeX : ℕ) (body : ℕ → σ → σ) :
    ∀ (n j : ℕ) (st : σ), numVisited tid sizeX - j ≤ n →
      strideLoopGo tid sizeX body n (32 * j) st =
        ((List.range' j (numVisited tid sizeX - j)).map (fun k => tid + 32 * k)).foldl
          (fun s z => body z s) st := by
  intro n
  induction n with
  | zero =>
    intro j st h
    have h0 : numVisited tid sizeX - j = 0 := by omega
    simp [h0, strideLoopGo]
  | succ n ih =>
    intro j st h
    by_cases hz : 32 * j + tid < sizeX
    · have hj : j < numVisited tid sizeX := (visit_lt_iff tid sizeX j).mp hz
      have hm : numVisited tid sizeX - j = (numVisited tid sizeX - (j + 1)) + 1 := by omega
      rw [hm, List.range'_succ]
      simp only [List.map_cons, List.foldl_cons]
      simp only [strideLoopGo, if_pos hz]
      rw [show 32 * j + 32 = 32 * (j + 1) by ring]
      rw [show tid + 32 * j = 32 * j + tid by ring]
      exact ih (j + 1) (body (32 * j + tid) st) (by omega)
    · have h0 : numVisited tid sizeX - j = 0 := by
        have := (visit_lt_iff tid sizeX j).mpr
        omega
      rw [h0]
      simp only [List.range'_zero, List.map_nil, List.foldl_nil]
      simp only [strideLoopGo, if_neg hz]
      exact strideLoopGo_stuck tid sizeX (32 * j) body hz n st

theorem numVisited_le_ceil (tid sizeX : ℕ) :
    numVisited tid sizeX ≤ max 1 (IntegralDivideRoundUp sizeX 32) := by
  simp only [numVisited, IntegralDivideRoundUp]
  omega

theorem strideLoop_char {σ : Type _} (tid sizeX sizeY : ℕ) (body : ℕ → σ → σ) (st : σ)
    (hY : numVisited tid sizeX ≤ max 1 sizeY) :
    strideLoop tid sizeX sizeY body st =
      (visitedSlots tid sizeX).foldl (fun s z => body z s) st := by
  have h := strideLoopGo_char tid sizeX body (max 1 sizeY) 0 st (by omega)
  simp only [Nat.mul_zero, Nat.sub_zero] at h
  rw [← List.range_eq_range'] at h
  exact h

theorem foldl_add_eq_sum (c : ℕ → ℚ) : ∀ (l : List ℕ) (a : ℚ),
    l.foldl (fun s z => s + c z) a = a + (l.map c).sum
  | [], a => by simp
  | z :: l, a => by
    simp only [List.foldl_cons, List.map_cons, List.sum_cons]
    rw [foldl_add_eq_sum c l (a + c z)]
    ring

theorem foldl_append_eq_map {α : Type _} (f : ℕ → α) : ∀ (l : List ℕ) (acc : List α),
    l.foldl (fun ws z => ws ++ [f z]) acc = acc ++ l.map f
  | [], acc => by simp
  | z :: l, acc => by
    simp only [List.foldl_cons, List.map_cons]
    rw [foldl_append_eq_map f l (acc ++ [f z])]
    simp

theorem mem_visitedSlots (tid sizeX : ℕ) (htid : tid < 32) (z : ℕ) :
    z ∈ visitedSlots tid sizeX ↔ z % 32 = tid ∧ z < sizeX := by
  simp only [visitedSlots, List.mem_map, List.mem_range, numVisited]
  constructor
  · rintro ⟨k, hk, rfl⟩
    omega
  · rintro ⟨h1, h2⟩
    exact ⟨(z - tid) / 32, by omega, by omega⟩

theorem pass1Sum_eq (tid sizeX : ℕ) (src : ℕ → Float4) (mask : Float4) (e : ℚ → ℚ) :
    pass1Sum tid sizeX (IntegralDivideRoundUp sizeX 32) src mask e =
      ((visitedSlots tid sizeX).map
        (fun z => dot4 (if z = sizeX - 1 then mask else ones4) (vexp e (src z)))).sum := by
  unfold pass1Sum
  rw [strideLoop_char _ _ _ _ _ (numVisited_le_ceil tid sizeX)]
  have hbody : (fun (s : ℚ) (z : ℕ) =>
      (fun z sum =>
        let mask_temp := if z = sizeX - 1 then mask else ones4
        let srcv := src z
        sum + dot4 mask_temp (vexp e srcv)) z s) =
      fun (s : ℚ) (z : ℕ) =>
        s + dot4 (if z = sizeX - 1 then mask else ones4) (vexp e (src z)) := rfl
  rw [hbody, foldl_add_eq_sum]
  ring

theorem pass2Writes_eq (tid sizeX : ℕ) (src : ℕ → Float4) (e : ℚ → ℚ) (sum : ℚ)
    (toFLT4 : Float4 → Float4) (ops : List (Float4 → ℕ → Float4)) :
    pass2Writes tid sizeX (IntegralDivideRoundUp sizeX 32) src e sum toFLT4 ops =
      (visitedSlots tid sizeX).map
        (fun z => (z, chainApply ops (toFLT4 (scalarMul (vexp e (src z)) sum)) z)) := by
  unfold pass2Writes
  rw [strideLoop_char _ _ _ _ _ (numVisited_le_ceil tid sizeX)]
  have hbody : (fun (ws : List (ℕ × Float4)) (z : ℕ) =>
      (fun z ws =>
        let res := toFLT4 (scalarMul (vexp e (src z)) sum)
        ws ++ [(z, chainApply ops res z)]) z ws) =
      fun (ws : List (ℕ × Float4)) (z : ℕ) =>
        ws ++ [(z, chainApply ops (toFLT4 (scalarMul (vexp e (src z)) sum)) z)] := rfl
  rw [hbody, foldl_append_eq_map]
  simp

theorem grandSum_eq (sums : ℕ → ℚ) :
    grandSum sums = ((List.range 32).map sums).sum := by
  have h : List.range 32 =
      [0, 1, 2, 3, 4, 5, 6, 7, 8, 9, 10, 11, 12, 13, 14, 15, 16, 17, 18, 19, 20,
       21, 22, 23, 24, 25, 26, 27, 28, 29, 30, 31] := rfl
  rw [h]
  simp only [List.map_cons, List.map_nil, List.sum_cons, List.sum_nil]
  simp [grandSum, tmpVec, dot4, ones4]
  ring

/-- C1: In the generated kernel's Pass 1, with `size` bound by `AddToQueue` to
`(sizeX, IntegralDivideRoundUp sizeX 32)`, each of the 32 threads visits exactly
the channel-vector slots `z = tid, tid+32, tid+64, ...` below the slot count
`size.x` (the visited slots are precisely those `z < size.x` with
`z mod 32 = tid`, in increasing order), and its thread-local running sum is the
sum over those slots of `dot(mask_or_ones, exp(src z))`, where the mask vector
is used exactly when the slot is the last one (`z = size.x - 1`) and the
all-ones vector otherwise. -/
theorem pass1_traversal_and_sum (tid sizeX : ℕ) (src : ℕ → Float4) (mask : Float4)
    (e : ℚ → ℚ) (htid : tid < 32) :
    pass1Sum tid sizeX (IntegralDivideRoundUp sizeX 32) src mask e =
      ((visitedSlots tid sizeX).map
        (fun z => dot4 (if z = sizeX - 1 then mask else ones4) (vexp e (src z)))).sum
    ∧ ∀ z : ℕ, z ∈ visitedSlots tid sizeX ↔ (z % 32 = tid ∧ z < sizeX) :=
  ⟨pass1Sum_eq tid sizeX src mask e, mem_visitedSlots tid sizeX htid⟩

theorem pass1_traversal_and_sum_witness :
    (0 : ℕ) < 32 ∧
      (pass1Sum 0 2 (IntegralDivideRoundUp 2 32) (fun _ => ⟨1, 0, 0, 0⟩) ⟨1, 1, 0, 0⟩ id =
        ((visitedSlots 0 2).map
          (fun z => dot4 (if z = 2 - 1 then (⟨1, 1, 0, 0⟩ : Float4) else ones4)
            (vexp id ((fun _ => (⟨1, 0, 0, 0⟩ : Float4)) z)))).sum
      ∧ ∀ z : ℕ, z ∈ visitedSlots 0 2 ↔ (z % 32 = 0 ∧ z < 2)) :=
  ⟨by decide, pass1_traversal_and_sum 0 2 (fun _ => ⟨1, 0, 0, 0⟩) ⟨1, 1, 0, 0⟩ id (by decide)⟩

/-- C2: the reciprocal thread 0 stores into shared scalar slot 0 — and that every
thread then loads — is the reciprocal of the eight register dot-products, which
equal the total of all 32 partial sums; and in Pass 2 every thread performs the
same stride-32 traversal as Pass 1, producing for each visited slot `z` the
destination write `(z, postprocess(TO_FLT4(exp(src z) * reciprocal)))` with the
linked-operation chain applied in order after the conversion; every slot
`z < size.x` is written, by the thread with `tid = z mod 32`, at the same
coordinate `z` it was read from. -/
theorem thread0_combine_and_pass2 (sizeX : ℕ) (src : ℕ → Float4) (mask : Float4)
    (e : ℚ → ℚ) (toFLT4 : Float4 → Float4) (ops : List (Float4 → ℕ → Float4)) :
    loadedRecip (pass1Sums sizeX src mask e) =
        1 / ((List.range 32).map (pass1Sums sizeX src mask e)).sum
    ∧ (∀ tid : ℕ,
        pass2Writes tid sizeX (IntegralDivideRoundUp sizeX 32) src e
            (loadedRecip (pass1Sums sizeX src mask e)) toFLT4 ops =
          (visitedSlots tid sizeX).map (fun z =>
            (z, chainApply ops
                  (toFLT4 (scalarMul (vexp e (src z))
                    (loadedRecip (pass1Sums sizeX src mask e)))) z)))
    ∧ ∀ z : ℕ, z < sizeX →
        (z, chainApply ops
              (toFLT4 (scalarMul (vexp e (src z))
                (loadedRecip (pass1Sums sizeX src mask e)))) z)
          ∈ pass2Writes (z % 32) sizeX (IntegralDivideRoundUp sizeX 32) src e
              (loadedRecip (pass1Sums sizeX src mask e)) toFLT4 ops := by
  refine ⟨?_, ?_, ?_⟩
  · show sharedAfterStore (pass1Sums sizeX src mask e) 0 = _
    rw [show sharedAfterStore (pass1Sums sizeX src mask e) 0 =
          1 / grandSum (pass1Sums sizeX src mask e) from rfl]
    rw [grandSum_eq]
  · intro tid
    exact pass2Writes_eq tid sizeX src e _ toFLT4 ops
  · intro z hz
    rw [pass2Writes_eq]
    have hmem : z ∈ visitedSlots (z % 32) sizeX :=
      (mem_visitedSlots (z % 32) sizeX (by omega) z).mpr ⟨by omega, hz⟩
    exact List.mem_map_of_mem _ hmem

/-- C3: for every source tensor with at least one channel, the mask vector bound
by `AddToQueue` (`GetMaskForLastPlane(Channels())`) has exactly
`channels mod 4` lanes of value 1.0 (4 lanes when the remainder is 0), the
valid lanes being the lowest-indexed ones — equivalently, the 0.0 lanes are
always the highest-indexed lanes `r..3`. -/
theorem mask_valid_lanes_thm (src : TensorShape) (_h : 1 ≤ src.channels) :
    laneList (maskArg src) =
      (List.range 4).map (fun i => if i < maskValidLanes src.channels then (1 : ℚ) else 0)
    ∧ (laneList (maskArg src)).count 1 = maskValidLanes src.channels := by
  have h4 : src.channels % 4 = 0 ∨ src.channels % 4 = 1 ∨ src.channels % 4 = 2 ∨
      src.channels % 4 = 3 := by omega
  rcases h4 with hc | hc | hc | hc <;>
    · simp only [laneList, maskArg, GetMaskForLastPlane, maskValidLanes, hc]
      decide

theorem mask_valid_lanes_witness :
    1 ≤ 5 ∧
      (laneList (maskArg ⟨1, 1, 5, 1⟩) =
        (List.range 4).map (fun i => if i < maskValidLanes 5 then (1 : ℚ) else 0)
      ∧ (laneList (maskArg ⟨1, 1, 5, 1⟩)).count 1 = maskValidLanes 5) :=
  ⟨by decide, mask_valid_lanes_thm ⟨1, 1, 5, 1⟩ (by decide)⟩

/-- C4 counterexample: for a source tensor with 8 channels the size pair bound by
`AddToQueue` is `(2, 1)` — first component `Depth = ceil(8/4) = 2` — which is
not `(8, ceil(8/32))` as claimed, so the first component is not the total
channel count. -/
theorem sizeArg_claim_counterexample :
    sizeArg ⟨1, 1, 8, 1⟩ = (2, 1) ∧
      ¬ sizeArg ⟨1, 1, 8, 1⟩ = (8, IntegralDivideRoundUp 8 32) := by decide

/-- C4 (amended): the 2-component size argument equals
`(slots, ceil(slots/32))` where `slots = ceil(channels/4)` is the tensor's
Depth — the number of 4-channel vector slots, not the raw channel count — and
its second component is the per-thread stride-32 iteration count, which bounds
the number of slots any thread visits. -/
theorem sizeArg_amended (src : TensorShape) (tid : ℕ) :
    sizeArg src = (IntegralDivideRoundUp src.channels 4,
        IntegralDivideRoundUp (IntegralDivideRoundUp src.channels 4) 32)
    ∧ numVisited tid (sizeArg src).1 ≤ (sizeArg src).2 := by
  constructor
  · rfl
  · simp only [sizeArg, TensorShape.Depth, numVisited, IntegralDivideRoundUp]
    omega

/-- C5: `AddToQueue` binds positionally in exactly the order the generated
kernel declares its parameters — source buffer, the linked operations' runtime
arguments in contribution order, the destination buffer opened for writing, the
4-component tensor-size descriptor, the 2-component size pair, the batch-size
scalar exactly when batch support is enabled, and the mask vector always
last. -/
theorem binding_order_matches_declaration (b : Bool) (ops : List ℕ) :
    boundArgs b ops = declaredParams b ops
    ∧ (boundArgs b ops).getLast? = some KernelArg.maskVector
    ∧ (KernelArg.batchScalar ∈ boundArgs b ops ↔ b = true) := by
  refine ⟨rfl, ?_, ?_⟩
  · simp only [boundArgs]
    exact List.getLast?_concat _
  · cases b <;> simp [boundArgs, linkedArgList]

/-- C6: every dispatch issued by `AddToQueue` uses local group size (32, 1, 1)
and global size (32, batch, 1); under the external tensors' convention that a
tensor without a batch dimension has `Batch() = 1`, the second global dimension
is the batch size when batch support is enabled and 1 otherwise. -/
theorem dispatch_geometry (batchSupport : Bool) (dst : TensorShape)
    (h : batchSupport = false → dst.batch = 1) :
    dispatchLocalSize = (32, 1, 1)
    ∧ dispatchGlobalSize dst = (32, if batchSupport then dst.batch else 1, 1) := by
  refine ⟨rfl, ?_⟩
  cases batchSupport
  · simp [dispatchGlobalSize, h rfl]
  · simp [dispatchGlobalSize]

theorem dispatch_geometry_witness :
    dispatchLocalSize = (32, 1, 1)
    ∧ dispatchGlobalSize ⟨1, 1, 4, 3⟩ =
        (32, if (true : Bool) then (⟨1, 1, 4, 3⟩ : TensorShape).batch else 1, 1) :=
  dispatch_geometry true ⟨1, 1, 4, 3⟩ (by decide)

/-- C7 counterexample: with batch support off, no linked operations, and every
bind after the first failing, `AddToQueue`'s binding phase returns the error
with the binding cursor left at 1 — it is not reset to zero before the failed
call returns. -/
theorem failed_bind_leaves_cursor :
    addToQueueBind false [] (fun i => decide (i = 0)) ⟨7⟩ = (false, ⟨1⟩)
    ∧ (addToQueueBind false [] (fun i => decide (i = 0)) ⟨7⟩).2.counter ≠ 0 := by decide

/-- C7 (amended): the binding cursor is reset to zero at the start of every
`AddToQueue` call — not before a failed call returns — so residual binding
state left by a previous (possibly failed) call never influences a call: the
outcome and resulting state are independent of the kernel state at entry. -/
theorem bind_reset_at_start (b : Bool) (ops : List ℕ) (ok : ℕ → Bool)
    (st st' : KernelBindState) :
    addToQueueBind b ops ok st = addToQueueBind b ops ok st' := rfl

/-- C8: under batch support the generated source is the declaration region and
the body opener followed immediately by the batch-overflow early-exit
statements, and only after them come Pass 1, the shared-memory store, the
first barrier, thread 0's combine, the second barrier, the reciprocal load and
Pass 2 — so the early exit is emitted as the very first statements of the
kernel body, before any computation, shared-memory access or barrier; the
early-exit text itself contains no barrier and no shared-memory access. -/
theorem early_exit_before_barriers (commonDefines : String) (srcT dstT : TensorCodeGen)
    (linked : List LinkedOpCode) :
    GetSoftmaxKernelCode commonDefines srcT dstT true linked =
      softmaxDeclRegion commonDefines srcT dstT true linked
        ++ (") \x7b\n"
        ++ (softmaxEarlyExit
        ++ (softmaxPass1Code (srcT.read4D "0" "0" "z" "B")
        ++ (softmaxStoreShared
        ++ (softmaxBarrierStmt
        ++ (softmaxCombineThread0
        ++ (softmaxBarrierStmt
        ++ (softmaxLoadRecip
        ++ softmaxPass2Code (srcT.read4D "0" "0" "z" "B") (PostProcess linked)
            ("    " ++ dstT.write4D "res" "0" "0" "z" "B")))))))))
    ∧ softmaxEarlyExit =
        "  int B = get_global_id(1);\n" ++ "  if (B >= BATCH_SIZE) return;\n"
    ∧ hasSub "barrier".data softmaxEarlyExit.data = false
    ∧ hasSub "__local".data softmaxEarlyExit.data = false
    ∧ softmaxBarrierStmt = "  barrier(CLK_LOCAL_MEM_FENCE);\n" := by
  refine ⟨?_, rfl, by decide, by decide, rfl⟩
  simp only [GetSoftmaxKernelCode, softmaxDeclRegion, softmaxEarlyExit, softmaxPass1Code,
    softmaxStoreShared, softmaxBarrierStmt, softmaxCombineThread0, softmaxLoadRecip,
    softmaxPass2Code, readSrcExpr, if_true]
  simp only [strAssoc]

/-- C9: kernel source generation is deterministic — two calls of the generator
with identical operation definition data and identical linked-operation
sequences return byte-identical source text; the generator is a pure function
of its inputs. -/
theorem source_generation_deterministic (cd cd' : String) (srcT srcT' dstT dstT' : TensorCodeGen)
    (b b' : Bool) (linked linked' : List LinkedOpCode)
    (hcd : cd = cd') (hs : srcT = srcT') (hd : dstT = dstT') (hb : b = b')
    (hl : linked = linked') :
    GetSoftmaxKernelCode cd srcT dstT b linked =
      GetSoftmaxKernelCode cd' srcT' dstT' b' linked' := by
  subst hcd
  subst hs
  subst hd
  subst hb
  subst hl
  rfl

theorem source_generation_deterministic_witness :
    GetSoftmaxKernelCode "defines"
        ⟨"srcdecl", fun _ _ _ => "r3", fun _ _ _ _ => "r4", fun _ _ _ _ => "w3",
          fun _ _ _ _ _ => "w4"⟩
        ⟨"dstdecl", fun _ _ _ => "r3", fun _ _ _ _ => "r4", fun _ _ _ _ => "w3",
          fun _ _ _ _ _ => "w4"⟩ false [] =
      GetSoftmaxKernelCode "defines"
        ⟨"srcdecl", fun _ _ _ => "r3", fun _ _ _ _ => "r4", fun _ _ _ _ => "w3",
          fun _ _ _ _ _ => "w4"⟩
        ⟨"dstdecl", fun _ _ _ => "r3", fun _ _ _ _ => "r4", fun _ _ _ _ => "w3",
          fun _ _ _ _ _ => "w4"⟩ false [] :=
  source_generation_deterministic _ _ _ _ _ _ _ _ _ _ rfl rfl rfl rfl rfl

/-- C10: move-assigning a Softmax1x1 object to itself is a no-op: the
self-assignment guard `this != &kernel` makes the assignment leave the whole
object store — in particular every member of the assigned object, including
the compiled kernel handle — unchanged. -/
theorem self_move_assign_noop (store : ℕ → Softmax1x1Obj) (a : ℕ) :
    moveAssignSoftmax store a a = store := by
  simp [moveAssignSoftmax]
